import Mathlib

/-!
Verification of the padswitch controller-routing core (src-tauri/src).

Shallow embedding conventions used throughout this file:
* Rust `String` / `&str` values that are only compared for equality are
  embedded as Lean `String`; strings whose bytes are inspected
  (ASCII-case-insensitive comparison, uppercase canonicalization, hashing,
  UTF-16 encoding) are embedded as `List Nat` of their code units, which is
  bit-exact for the ASCII device paths, process names and driver payloads
  the program manipulates.
* Machine integers are `Nat` (or `Int`) with explicit `% 2^w` wrapping where
  the source wraps (the SipHash-1-3 hasher behind
  `std::collections::hash_map::DefaultHasher`).
* Fallible operations are driven by explicit environment records that fix
  the success/failure of every external call; worker control flow is
  embedded as a pure function from that environment to the (finite) trace
  of platform-service calls it issues.
-/

set_option autoImplicit false

namespace PadSwitch

/-- Generic list concatenation helper (Rust iterator `flat_map` / repeated
`extend` on a `Vec`). -/
def concatAll {α : Type} : List (List α) → List α
  | [] => []
  | l :: ls => l ++ concatAll ls

/-- A byte (or UTF-16 code unit) string: the faithful view of a Rust string
for the byte-level operations the program performs. -/
abbrev Bytes := List Nat

/-- Rust `u8::to_ascii_uppercase` on one byte: ASCII `a`–`z` maps to `A`–`Z`,
everything else is unchanged. -/
def asciiUpperByte (b : Nat) : Nat :=
  if 97 ≤ b ∧ b ≤ 122 then b - 32 else b

/-- Rust `str::to_uppercase` restricted to ASCII content, which is the shape of
every device instance path and driver payload the program uppercases. -/
def toUppercase (s : Bytes) : Bytes := s.map asciiUpperByte

/-- Rust `u8::to_ascii_lowercase` on one byte. -/
def asciiLowerByte (b : Nat) : Nat :=
  if 65 ≤ b ∧ b ≤ 90 then b + 32 else b

/-- Rust `str::eq_ignore_ascii_case`: equal length and bytewise equality after
ASCII lowercasing, i.e. equality of the lowercased byte sequences. -/
def eqIgnoreAsciiCase (a b : Bytes) : Bool :=
  a.map asciiLowerByte == b.map asciiLowerByte

/-- View an ASCII Lean string literal as its byte sequence (UTF-8 bytes of an
ASCII string are exactly its character codes). -/
def strBytes (s : String) : Bytes := s.toList.map Char.toNat

namespace hidhide

/-- Rust `u16::to_le_bytes`: the two little-endian bytes of a 16-bit word. -/
def u16ToLeBytes (w : Nat) : List Nat := [w % 256, w / 256 % 256]

/-- The UTF-16 code-unit stream built by `encode_multi_string`: every string
followed by a terminating `0` unit, plus the final extra `0`
(`src-tauri/src/hidhide.rs`, `encode_multi_string`, the `wide` vector).
A string is represented by its UTF-16 code-unit sequence, which `encode_utf16`
produces from the Rust string. -/
def encodeWide (strings : List Bytes) : List Nat :=
  concatAll (strings.map (fun s => s ++ [0])) ++ [0]

/-- Source `encode_multi_string`: the double-null-terminated UTF-16LE byte buffer:
each code unit of the wide stream contributes its two little-endian bytes. -/
def encode_multi_string (strings : List Bytes) : List Nat :=
  concatAll ((encodeWide strings).map u16ToLeBytes)

/-- The `chunks_exact(2)` + `u16::from_le_bytes` pass of
`decode_multi_string`: pairs of bytes become code units, a trailing odd byte
is dropped. -/
def bytesToWide : List Nat → List Nat
  | b0 :: b1 :: rest => (b0 + 256 * b1) :: bytesToWide rest
  | _ => []

/-- The splitting loop of `decode_multi_string`: accumulate code units into
`cur`; a `0` unit terminates the current string, and a `0` unit with an empty
accumulator (double null) ends the list. -/
def splitLoop : List Nat → List Nat → List Bytes
  | _, [] => []
  | cur, ch :: rest =>
    if ch = 0 then
      if cur = [] then [] else cur :: splitLoop [] rest
    else splitLoop (cur ++ [ch]) rest

/-- Source `decode_multi_string`: reject buffers shorter than two bytes, otherwise
convert to code units and split on null terminators
(`src-tauri/src/hidhide.rs`). `String::from_utf16_lossy` is the identity on
the well-formed unit sequences produced here, so strings stay code-unit
lists. -/
def decode_multi_string (bytes : List Nat) : List Bytes :=
  if bytes.length < 2 then [] else splitLoop [] (bytesToWide bytes)

/-- Source `HidHide::add_to_blacklist` modelled on the current blacklist of the driver:
read the list, uppercase-compare against the new path, and issue the
`SET_BLACKLIST` IOCTL (second component `true`) only when the path is not
already present (`src-tauri/src/hidhide.rs`, lines 78–86). -/
def add_to_blacklist (blacklist : List Bytes) (instance_path : Bytes) :
    List Bytes × Bool :=
  let normalized := toUppercase instance_path
  if blacklist.any (fun s => toUppercase s == normalized) then
    (blacklist, false)
  else
    (blacklist ++ [instance_path], true)

/-- Number of `SET_BLACKLIST` IOCTLs issued by one `add_to_blacklist` call. -/
def setCount (issued : Bool) : Nat := if issued then 1 else 0

end hidhide

namespace siphash

/-- Low 64 bits (`u64` wrapping arithmetic). -/
def wrap64 (x : Nat) : Nat := x % 18446744073709551616

/-- Rust `u64::rotate_left` for `x < 2^64`, `0 < n < 64`. -/
def rotl64 (x n : Nat) : Nat := wrap64 (x <<< n) ||| (x >>> (64 - n))

/-- The four 64-bit lanes of the SipHash state. -/
structure SipState where
  v0 : Nat
  v1 : Nat
  v2 : Nat
  v3 : Nat

/-- One SipRound, as in the Rust core file `sip.rs` (the hasher behind
`std::collections::hash_map::DefaultHasher`). -/
def sipRound (s : SipState) : SipState :=
  let v0 := wrap64 (s.v0 + s.v1)
  let v1 := rotl64 s.v1 13
  let v1 := v1 ^^^ v0
  let v0 := rotl64 v0 32
  let v2 := wrap64 (s.v2 + s.v3)
  let v3 := rotl64 s.v3 16
  let v3 := v3 ^^^ v2
  let v0 := wrap64 (v0 + v3)
  let v3 := rotl64 v3 21
  let v3 := v3 ^^^ v0
  let v2 := wrap64 (v2 + v1)
  let v1 := rotl64 v1 17
  let v1 := v1 ^^^ v2
  let v2 := rotl64 v2 32
  ⟨v0, v1, v2, v3⟩

/-- Absorb one message word: `v3 ^= m`, one round (SipHash-1-3 uses a single
compression round), `v0 ^= m`. -/
def sipCompress (s : SipState) (m : Nat) : SipState :=
  let s1 : SipState := { s with v3 := s.v3 ^^^ m }
  let s2 := sipRound s1
  { s2 with v0 := s2.v0 ^^^ m }

/-- Little-endian value of a byte list. -/
def leWord : List Nat → Nat
  | [] => 0
  | b :: rest => b + 256 * leWord rest

/-- Absorb all complete 8-byte words; return the residual tail (< 8 bytes). -/
def sipBlocks : SipState → List Nat → SipState × List Nat
  | s, b0 :: b1 :: b2 :: b3 :: b4 :: b5 :: b6 :: b7 :: rest =>
    sipBlocks (sipCompress s (leWord [b0, b1, b2, b3, b4, b5, b6, b7])) rest
  | s, l => (s, l)

/-- SipHash-1-3 with the zero key, exactly `DefaultHasher::new()` +
`finish()` over the written byte stream: initial lanes are the SipHash
constants, the final word packs the tail bytes under `(len % 256) << 56`,
and finalization XORs `0xff` into `v2` followed by three rounds. -/
def sipHash13 (msg : List Nat) : Nat :=
  let init : SipState :=
    ⟨0x736f6d6570736575, 0x646f72616e646f6d, 0x6c7967656e657261, 0x7465646279746573⟩
  let p := sipBlocks init msg
  let b := wrap64 ((msg.length % 256) <<< 56) ||| leWord p.2
  let s := sipCompress p.1 b
  let s := { s with v2 := s.v2 ^^^ 0xff }
  let s := sipRound (sipRound (sipRound s))
  s.v0 ^^^ s.v1 ^^^ s.v2 ^^^ s.v3

/-- Rust `Hash for str` feeds the bytes of the string followed by a `0xff` length
delimiter into the hasher; this is `hasher.finish()` after `s.hash(&mut h)`
on a fresh `DefaultHasher`. -/
def defaultHashStr (s : Bytes) : Nat := sipHash13 (s ++ [0xff])

/-- One lowercase hex digit. -/
def hexDigit (n : Nat) : Char :=
  if n < 10 then Char.ofNat (48 + n) else Char.ofNat (87 + n)

/-- The Rust `format` rendering of a `u64` with the 16-digit zero-padded lowercase hex
specification: most significant nibble first. -/
def hex16 (n : Nat) : String :=
  String.mk ((List.range 16).map (fun i => hexDigit (n >>> (4 * (15 - i)) % 16)))

end siphash

namespace setupdi

/-- Source `setupdi::imp::stable_device_id` (Windows backend,
`src-tauri/src/setupdi.rs` lines 37–41): hash the *uppercased* instance path
with `DefaultHasher` and render `dev-` plus 16 hex digits. Instance paths
are ASCII device identifiers, so `str::to_uppercase` is ASCII uppercasing. -/
def stable_device_id (instance_path : Bytes) : String :=
  "dev-" ++ siphash.hex16 (siphash.defaultHashStr (toUppercase instance_path))

end setupdi

namespace linux_platform

/-- Source `platform/linux.rs::stable_device_id`, non-empty physical-path branch
(lines 27–35): hash the physical path *as is* — no uppercase
canonicalization — and render `linux-` plus 16 hex digits. (The
name+vendor+product fallback for devices without a physical path is not
modelled; the claims only concern the path-derived branch.) -/
def stable_device_id (physical_path : Bytes) : String :=
  "linux-" ++ siphash.hex16 (siphash.defaultHashStr physical_path)

end linux_platform

/-- Source `input_loop::ResolvedAssignment`: a slot assignment resolved to real
device data (instance path, currently-occupied XInput slot if known, target
virtual slot). -/
structure ResolvedAssignment where
  instance_path : String
  xinput_slot : Option Nat
  target_slot : Nat
deriving DecidableEq

/-- Insert before the first element with a strictly larger key — the
characteristic step of a stable sort by `target_slot`. -/
def orderedInsertRA (a : ResolvedAssignment) :
    List ResolvedAssignment → List ResolvedAssignment
  | [] => [a]
  | b :: l =>
    if a.target_slot ≤ b.target_slot then a :: b :: l else b :: orderedInsertRA a l

/-- Source `sorted.sort_by_key` on `target_slot`: the Rust slice sort is stable, and
any two stable sorts by the same key agree, so stable insertion sort is an
exact embedding of its result. -/
def sortByTargetSlot : List ResolvedAssignment → List ResolvedAssignment
  | [] => []
  | a :: rest => orderedInsertRA a (sortByTargetSlot rest)

/-- One observable step of the Minimal-mode worker: a SetupDi disable/enable
call on a device path, or a `thread::sleep` of the given milliseconds. -/
inductive MinEvent
  | disable (path : String)
  | enable (path : String)
  | sleepMs (ms : Nat)
deriving DecidableEq

/-- The reorder phase of `run_minimal` (`src-tauri/src/input_loop.rs` lines
94–131), as the sequence of platform calls and sleeps it issues while the
`running` flag stays set: sort by target slot, disable every path, sleep
200 ms, then enable each path followed by a 100 ms sleep. `setupdiFails`
fixes which SetupDi calls fail; the source only logs failures, so the trace
never consults it. (The subsequent hold phase — a 500 ms `running` poll
loop — issues no further platform calls and is not part of this trace.) -/
def run_minimal_trace (setupdiFails : String → Bool)
    (assignments : List ResolvedAssignment) : List MinEvent :=
  let sorted := sortByTargetSlot assignments
  let paths := sorted.map (·.instance_path)
  (paths.map MinEvent.disable) ++ [MinEvent.sleepMs 200] ++
    concatAll (paths.map (fun p => [MinEvent.enable p, MinEvent.sleepMs 100]))

/-- The cleanup that `run_minimal` performs after `running` clears: re-enable
every touched path in the same sorted order (lines 139–145). -/
def run_minimal_cleanup_trace (assignments : List ResolvedAssignment) : List MinEvent :=
  (sortByTargetSlot assignments).map (fun a => MinEvent.enable a.instance_path)

/-- One observable step of the Force-mode worker (Windows pipeline,
`src-tauri/src/input_loop.rs` lines 169–301). -/
inductive ForceEvent
  | whitelistSelf
  | hide (path : String)
  | openHidHide (ok : Bool)
  | setActive (active : Bool)
  | busConnect (ok : Bool)
  | plugTarget (index : Nat) (ok : Bool)
  | loadXInput (ok : Bool)
  | unhide (path : String)
deriving DecidableEq

/-- Success/failure of every external call the Force worker makes. The
hiding-driver control device is opened twice on failure paths (activation
and cleanup), hence two open flags. Per-path `hide_device` failures are only
logged by the source and change nothing observable, so they are not
tracked. -/
structure ForceEnv where
  whitelistOk : Bool
  openOk : Bool
  setActiveOk : Bool
  busConnectOk : Bool
  plugOk : Nat → Bool
  xinputLoadOk : Bool
  cleanupOpenOk : Bool

/-- Where `run_force_forwarding` returned (or whether it reached the 1 kHz
forwarding loop). -/
inductive StartOutcome
  | abortedNoCleanup
  | abortedWithCleanup
  | enteredLoop
deriving DecidableEq

/-- Source `cleanup_force` (lines 286–301): open the hiding driver and, if that
succeeds, set the global active flag to false (result ignored); then unhide
every instance path. -/
def cleanup_force (env : ForceEnv) (instance_paths : List String) : List ForceEvent :=
  (if env.cleanupOpenOk then
    [ForceEvent.openHidHide true, ForceEvent.setActive false]
  else [ForceEvent.openHidHide false]) ++ instance_paths.map ForceEvent.unhide

/-- Step 5 of the Force pipeline: plug one virtual Xbox 360 target per
assignment, in sorted order, each `plugin_wait` completing before the next
begins; stop at the first failure. Returns the plug events and whether all
plugs succeeded. -/
def plugTargets (env : ForceEnv) : Nat → Nat → List ForceEvent × Bool
  | _, 0 => ([], true)
  | i, n + 1 =>
    if env.plugOk i then
      let rest := plugTargets env (i + 1) n
      (ForceEvent.plugTarget i true :: rest.1, rest.2)
    else ([ForceEvent.plugTarget i false], false)

/-- Source `run_force_forwarding` acquisition phase (lines 169–254): the trace of
external calls up to the forwarding loop, and where the function returned.
Control flow mirrors the source: whitelist failure and hiding-driver *open*
failure return without running `cleanup_force`; a `set_active(true)` failure
is logged and the start continues; virtual-bus connect, target-plug, and
XInput-load failures run `cleanup_force` and return. The 1 kHz loop itself
is modelled separately (`force_pass`). -/
def run_force_forwarding (env : ForceEnv) (assignments : List ResolvedAssignment) :
    List ForceEvent × StartOutcome :=
  let sorted := sortByTargetSlot assignments
  let instance_paths := sorted.map (·.instance_path)
  if ¬ env.whitelistOk then ([ForceEvent.whitelistSelf], .abortedNoCleanup)
  else
    let t1 := ForceEvent.whitelistSelf :: instance_paths.map ForceEvent.hide
    if ¬ env.openOk then (t1 ++ [ForceEvent.openHidHide false], .abortedNoCleanup)
    else
      let t2 := t1 ++ [ForceEvent.openHidHide true, ForceEvent.setActive true]
      if ¬ env.busConnectOk then
        (t2 ++ [ForceEvent.busConnect false] ++ cleanup_force env instance_paths,
          .abortedWithCleanup)
      else
        let t3 := t2 ++ [ForceEvent.busConnect true]
        let plugs := plugTargets env 0 sorted.length
        if ¬ plugs.2 then
          (t3 ++ plugs.1 ++ cleanup_force env instance_paths, .abortedWithCleanup)
        else
          let t4 := t3 ++ plugs.1
          if ¬ env.xinputLoadOk then
            (t4 ++ [ForceEvent.loadXInput false] ++ cleanup_force env instance_paths,
              .abortedWithCleanup)
          else (t4 ++ [ForceEvent.loadXInput true], .enteredLoop)

/-- A `forwarding-status` event as emitted to the UI bridge, reduced to its
two observable fields: the `active` flag and whether an `error` field is
present. -/
inductive UiEvent
  | forwardingStatus (active : Bool) (hasError : Bool)
deriving DecidableEq

/-- Joint observable state after a Force-mode `start_forwarding` command
succeeded and the spawned worker ran: the `Inner.forwarding_active` flag,
the `forwarding-status` events emitted so far, the atomic `running` flag of
the worker, and the call trace of the worker. -/
structure SysResult where
  forwarding_active : Bool
  events : List UiEvent
  workerRunning : Bool
  workerTrace : List ForceEvent
deriving DecidableEq

/-- Source `commands::start_forwarding` success path composed with the worker:
`Inner.start_forwarding` returned `Ok` (preflight passed, resolved list
non-empty, thread spawned), so the command set `forwarding_active := true`
and emitted `forwarding-status {active: true}` (commands.rs lines 77–86);
the worker thread then ran `run_force_forwarding`. The worker has no
reference to `Inner` and no app handle: on its failure paths it only stores
`false` into the shared `running` flag and returns — it neither resets
`forwarding_active` nor emits any event. -/
def force_start_session (env : ForceEnv) (assignments : List ResolvedAssignment) :
    SysResult :=
  let r := run_force_forwarding env assignments
  { forwarding_active := true
    events := [UiEvent.forwardingStatus true false]
    workerRunning := match r.2 with | .enteredLoop => true | _ => false
    workerTrace := r.1 }

/-- Source `Inner::start_forwarding` synchronous result (state.rs lines 51–78) as
`(forwarding_active afterwards, Ok?)`: a no-op success when already active;
otherwise the flag is set only after preflight, a non-empty resolved list,
and a successful spawn. -/
def start_forwarding_sync (forwarding_active preflightOk resolvedNonempty spawnOk : Bool) :
    Bool × Bool :=
  if forwarding_active then (true, true)
  else if ¬ preflightOk then (false, false)
  else if ¬ resolvedNonempty then (false, false)
  else if ¬ spawnOk then (false, false)
  else (true, true)

/-- Source `device::GamepadState`: 16-bit button bitmap, two `u8` triggers, four
`i16` thumbstick axes. `#[derive(Default)]` makes the all-zero state the
neutral frame a freshly plugged virtual pad reports until first updated. -/
structure GamepadState where
  buttons : Nat
  left_trigger : Nat
  right_trigger : Nat
  thumb_lx : Int
  thumb_ly : Int
  thumb_rx : Int
  thumb_ry : Int
deriving DecidableEq

/-- Source `GamepadState::default()`. -/
def GamepadState.neutral : GamepadState := ⟨0, 0, 0, 0, 0, 0, 0⟩

/-- One pass of the Force forwarding loop (input_loop.rs lines 257–277) over
the sorted assignments, starting at enumeration index `i`: an assignment
with no known `xinput_slot` is skipped (`continue`), a failed
`xinput.get_state` read produces no update, and a successful read pushes a
frame to virtual target `i`. (`to_xgamepad` — referenced by the loop but
absent from `src/vigem.rs` — translates the frame field-by-field per the
spec; which targets receive updates is independent of it, so updates carry
the read state.) -/
def forcePassAux (xinputReads : Nat → Option GamepadState) :
    Nat → List ResolvedAssignment → List (Nat × GamepadState)
  | _, [] => []
  | i, ra :: rest =>
    match ra.xinput_slot with
    | none => forcePassAux xinputReads (i + 1) rest
    | some slot =>
      match xinputReads slot with
      | none => forcePassAux xinputReads (i + 1) rest
      | some st => (i, st) :: forcePassAux xinputReads (i + 1) rest

/-- A full pass over all sorted assignments. -/
def force_pass (xinputReads : Nat → Option GamepadState)
    (sorted : List ResolvedAssignment) : List (Nat × GamepadState) :=
  forcePassAux xinputReads 0 sorted

/-- Apply the updates of one pass to the reported states of the virtual
targets in order
(`targets[i].update(..)`, last write wins). -/
def applyUpdates : (Nat → GamepadState) → List (Nat × GamepadState) → Nat → GamepadState
  | f, [] => f
  | f, (j, st) :: rest => applyUpdates (fun k => if k = j then st else f k) rest

/-- The reported states of the targets after any number of forwarding-loop
passes,
each pass given its own slot-read results, starting from the neutral state
every target reports when plugged. -/
def runPasses (assignments : List ResolvedAssignment)
    (reads : List (Nat → Option GamepadState)) : Nat → GamepadState :=
  reads.foldl
    (fun f r => applyUpdates f (force_pass r (sortByTargetSlot assignments)))
    (fun _ => GamepadState.neutral)

/-- Source `device::DeviceType`. -/
inductive DeviceType
  | XInput
  | DirectInput
  | Unknown
deriving DecidableEq

/-- Source `device::PhysicalDevice`. -/
structure PhysicalDevice where
  id : String
  name : String
  instance_path : Bytes
  device_type : DeviceType
  hidden : Bool
  connected : Bool
  vendor_id : Nat
  product_id : Nat
  xinput_slot : Option Nat
deriving DecidableEq

/-- Source `PhysicalDevice::from_xinput_slot`: the synthetic fallback entry for an
occupied XInput slot with no matching SetupAPI device. -/
def PhysicalDevice.from_xinput_slot (slot : Nat) : PhysicalDevice where
  id := "xinput-" ++ toString slot
  name := "XInput Controller (Slot " ++ toString slot ++ ")"
  instance_path := strBytes ("XINPUT\\SLOT" ++ toString slot)
  device_type := DeviceType.XInput
  hidden := false
  connected := true
  vendor_id := 0
  product_id := 0
  xinput_slot := some slot

/-- Source `setupdi::imp::GameControllerInfo`: a game controller discovered via
SetupAPI, with its XInput-driver flag. -/
structure GameControllerInfo where
  instance_path : Bytes
  name : String
  vendor_id : Nat
  product_id : Nat
  is_xinput : Bool

/-- The `PhysicalDevice` built for one SetupAPI device in
`WindowsPlatform::enumerate_devices` (platform/windows.rs lines 71–86). -/
def mkEnumeratedDevice (dev : GameControllerInfo) (slot : Option Nat) : PhysicalDevice where
  id := setupdi.stable_device_id dev.instance_path
  name := dev.name
  instance_path := dev.instance_path
  device_type := if dev.is_xinput then DeviceType.XInput else DeviceType.DirectInput
  hidden := false
  connected := true
  vendor_id := dev.vendor_id
  product_id := dev.product_id
  xinput_slot := slot

/-- The enumeration join of platform/windows.rs lines 48–93: walk the
SetupAPI devices in order, handing the next connected XInput slot to each
XInput-capable device (`slot_iter.next()`), `none` to DirectInput devices;
return the built devices and the leftover (unconsumed) slots. -/
def assignSlots : List GameControllerInfo → List Nat → List PhysicalDevice × List Nat
  | [], slots => ([], slots)
  | dev :: rest, slots =>
    if dev.is_xinput then
      match slots with
      | [] =>
        let r := assignSlots rest []
        (mkEnumeratedDevice dev none :: r.1, r.2)
      | s :: slots' =>
        let r := assignSlots rest slots'
        (mkEnumeratedDevice dev (some s) :: r.1, r.2)
    else
      let r := assignSlots rest slots
      (mkEnumeratedDevice dev none :: r.1, r.2)

/-- Source `WindowsPlatform::connected_xinput_slots`: the XInput slots `0..4` whose
`get_state` succeeds, in ascending order. -/
def connectedSlots (occupied : Nat → Bool) : List Nat :=
  (List.range 4).filter occupied

/-- Source `WindowsPlatform::enumerate_devices` (platform/windows.rs lines 33–104):
with SetupAPI devices present, join them with the connected slots and append
fallback entries for leftover occupied slots; with none, fall back to
XInput-only enumeration. -/
def enumerate_devices (connected_slots : List Nat)
    (real_devices : List GameControllerInfo) : List PhysicalDevice :=
  if real_devices.isEmpty then
    connected_slots.map PhysicalDevice.from_xinput_slot
  else
    let r := assignSlots real_devices connected_slots
    r.1 ++ r.2.map PhysicalDevice.from_xinput_slot

/-- The multiset of bound XInput slots of a device table (devices without a
slot contribute nothing). -/
def slotsOf (devices : List PhysicalDevice) : List Nat :=
  devices.filterMap (·.xinput_slot)

/-- Invariant: at most one device is bound to each `xinput_slot` value. -/
def slotUnique (devices : List PhysicalDevice) : Prop := (slotsOf devices).Nodup

instance (devices : List PhysicalDevice) : Decidable (slotUnique devices) :=
  inferInstanceAs (Decidable (slotsOf devices).Nodup)

namespace commands

/-- Source `commands::confirm_device_slot` (commands.rs lines 279–296): set the
first device with the given id to the confirmed slot; every other device is
left untouched. -/
def confirm_device_slot (devices : List PhysicalDevice) (device_id : String)
    (xinput_slot : Nat) : List PhysicalDevice :=
  match devices with
  | [] => []
  | d :: rest =>
    if d.id = device_id then { d with xinput_slot := some xinput_slot } :: rest
    else d :: confirm_device_slot rest device_id xinput_slot

end commands

/-- Source `config::RoutingMode`. -/
inductive RoutingMode
  | Minimal
  | Force
deriving DecidableEq

/-- Source `device::SlotAssignment`. -/
structure SlotAssignment where
  device_id : String
  slot : Nat
  enabled : Bool
deriving DecidableEq

/-- Source `config::Profile`. -/
structure Profile where
  id : String
  name : String
  assignments : List SlotAssignment
  routing_mode : RoutingMode
deriving DecidableEq

/-- Source `config::GameRule`; `exe_name` is matched ASCII-case-insensitively, so it
is kept as its byte sequence. -/
structure GameRule where
  id : String
  exe_name : Bytes
  profile_id : String
  enabled : Bool
deriving DecidableEq

/-- The App-State fields observed by the profile-activation and watcher
claims: `config.profiles`, `config.game_rules`,
`config.settings.active_profile_id`, the in-memory `assignments`, and
`forwarding_active`. -/
structure AppModel where
  profiles : List Profile
  game_rules : List GameRule
  active_profile_id : Option String
  assignments : List SlotAssignment
  forwarding_active : Bool
deriving DecidableEq

/-- Side effects the activation paths issue, in order: config persistence,
a forwarding restart (stop + start), UI events, tray-menu rebuild. -/
inductive Effect
  | saveConfig
  | restartForwarding
  | emitForwardingStatus (active : Bool) (hasError : Bool)
  | emitProfileActivated (profile_id : Option String)
  | rebuildTray
deriving DecidableEq

namespace commands

/-- Source `commands::activate_profile` (commands.rs lines 148–170): look the
profile up (error when absent), write `active_profile_id`, save the config,
replace the in-memory assignments, rebuild the tray, and return the
assignments. It issues no forwarding restart and no event. -/
def activate_profile (m : AppModel) (profile_id : String) :
    Option (AppModel × List Effect × List SlotAssignment) :=
  match m.profiles.find? (fun p => p.id == profile_id) with
  | none => none
  | some profile =>
    some ({ m with
              active_profile_id := some profile_id,
              assignments := profile.assignments },
          [Effect.saveConfig, Effect.rebuildTray], profile.assignments)

end commands

namespace process_watcher

/-- Source `process_watcher::activate_profile_internal` (process_watcher.rs lines
161–203): look the profile up (returning `false` when absent), write
`active_profile_id` and the assignments, save; if forwarding is active,
restart it — a failed restart leaves forwarding stopped and emits
`forwarding-status {active:false, error}` — then rebuild the tray and emit
`profile-activated`. `restartFails` fixes the outcome of the restart. -/
def activate_profile_internal (restartFails : Bool) (m : AppModel)
    (profile_id : String) : AppModel × List Effect × Bool :=
  match m.profiles.find? (fun p => p.id == profile_id) with
  | none => (m, [], false)
  | some profile =>
    ({ m with
        active_profile_id := some profile_id,
        assignments := profile.assignments,
        forwarding_active :=
          if m.forwarding_active && restartFails then false else m.forwarding_active },
      [Effect.saveConfig] ++
        (if m.forwarding_active then
          [Effect.restartForwarding] ++
            (if restartFails then [Effect.emitForwardingStatus false true] else [])
        else []) ++
        [Effect.rebuildTray, Effect.emitProfileActivated (some profile_id)],
      true)

/-- Step 3 of the watcher tick: the first enabled rule whose `exe_name`
matches any running process ASCII-case-insensitively
(process_watcher.rs lines 85–92). -/
def matched_rule (rules : List GameRule) (processes : List Bytes) : Option GameRule :=
  (rules.filter (·.enabled)).find?
    (fun r => processes.any (fun p => eqIgnoreAsciiCase p r.exe_name))

end process_watcher

/-- The private state of the watcher thread: the currently matched rule and the
profile that was active before the game launched. -/
structure WatcherState where
  active_rule_id : Option String
  pre_game_profile_id : Option String
deriving DecidableEq

namespace process_watcher

/-- One tick of `watcher_loop` (process_watcher.rs lines 70–155): snapshot
rules and the current profile id, match processes, and apply the transition
table. Returns the new watcher state, the new app state, and the effects. -/
def watcher_tick (restartFails : Bool) (ws : WatcherState) (m : AppModel)
    (processes : List Bytes) : WatcherState × AppModel × List Effect :=
  let current_profile_id := m.active_profile_id
  match ws.active_rule_id, matched_rule m.game_rules processes with
  | none, some rule =>
    let r := activate_profile_internal restartFails m rule.profile_id
    if r.2.2 then (⟨some rule.id, current_profile_id⟩, r.1, r.2.1)
    else (ws, r.1, r.2.1)
  | some _, none =>
    match ws.pre_game_profile_id with
    | some prev =>
      let r := activate_profile_internal restartFails m prev
      (⟨none, none⟩, r.1, r.2.1)
    | none =>
      (⟨none, none⟩, { m with active_profile_id := none },
        [Effect.saveConfig, Effect.rebuildTray, Effect.emitProfileActivated none])
  | some current_id, some rule =>
    if current_id ≠ rule.id then
      let r := activate_profile_internal restartFails m rule.profile_id
      if r.2.2 then (⟨some rule.id, ws.pre_game_profile_id⟩, r.1, r.2.1)
      else (ws, r.1, r.2.1)
    else (ws, m, [])
  | none, none => (ws, m, [])

end process_watcher

theorem bytesToWide_concatAll (ws : List Nat) (h : ∀ w ∈ ws, w < 65536) :
    hidhide.bytesToWide (concatAll (ws.map hidhide.u16ToLeBytes)) = ws := by
  induction ws with
  | nil => rfl
  | cons w ws ih =>
    have hw : w < 65536 := h w (List.mem_cons_self _ _)
    have hrec := ih (fun x hx => h x (List.mem_cons_of_mem _ hx))
    simp only [List.map_cons, concatAll, hidhide.u16ToLeBytes, List.cons_append,
      List.nil_append, hidhide.bytesToWide, hrec]
    congr 1
    omega

theorem mem_concatAll {α : Type} (w : α) (ls : List (List α)) :
    w ∈ concatAll ls ↔ ∃ l ∈ ls, w ∈ l := by
  induction ls with
  | nil => simp [concatAll]
  | cons l ls ih =>
    simp only [concatAll, List.mem_append, ih, List.mem_cons]
    constructor
    · rintro (hw | ⟨t, ht, hwt⟩)
      · exact ⟨l, Or.inl rfl, hw⟩
      · exact ⟨t, Or.inr ht, hwt⟩
    · rintro ⟨t, rfl | ht, hwt⟩
      · exact Or.inl hwt
      · exact Or.inr ⟨t, ht, hwt⟩

theorem splitLoop_cons (cur : List Nat) (ch : Nat) (rest : List Nat) :
    hidhide.splitLoop cur (ch :: rest) =
      if ch = 0 then (if cur = [] then [] else cur :: hidhide.splitLoop [] rest)
      else hidhide.splitLoop (cur ++ [ch]) rest := rfl

theorem splitLoop_append (s : List Nat) (hs : ∀ u ∈ s, u ≠ 0) (cur rest : List Nat) :
    hidhide.splitLoop cur (s ++ 0 :: rest) =
      if cur ++ s = [] then [] else (cur ++ s) :: hidhide.splitLoop [] rest := by
  induction s generalizing cur with
  | nil => simp [hidhide.splitLoop]
  | cons u s ih =>
    have hu : u ≠ 0 := hs u (List.mem_cons_self _ _)
    have hrec := ih (fun x hx => hs x (List.mem_cons_of_mem _ hx)) (cur ++ [u])
    have hassoc : cur ++ [u] ++ s = cur ++ u :: s := by simp
    rw [hassoc] at hrec
    have hne : cur ++ u :: s ≠ [] := by simp
    rw [List.cons_append, splitLoop_cons, if_neg hu, hrec, if_neg hne]

theorem splitLoop_encodeWide (L : List Bytes)
    (hne : ∀ s ∈ L, s ≠ []) (hnz : ∀ s ∈ L, ∀ u ∈ s, u ≠ 0) :
    hidhide.splitLoop [] (hidhide.encodeWide L) = L := by
  induction L with
  | nil => rfl
  | cons s L ih =>
    have h1 : hidhide.encodeWide (s :: L) = s ++ 0 :: hidhide.encodeWide L := by
      simp [hidhide.encodeWide, concatAll, List.append_assoc]
    rw [h1, splitLoop_append s (hnz s (List.mem_cons_self _ _)) [] _]
    have hs : s ≠ [] := hne s (List.mem_cons_self _ _)
    simp only [List.nil_append, if_neg hs]
    rw [ih (fun t ht => hne t (List.mem_cons_of_mem _ ht))
        (fun t ht => hnz t (List.mem_cons_of_mem _ ht))]

theorem encode_length (L : List Bytes) :
    (hidhide.encode_multi_string L).length = 2 * (hidhide.encodeWide L).length := by
  show (concatAll ((hidhide.encodeWide L).map hidhide.u16ToLeBytes)).length = _
  generalize hidhide.encodeWide L = ws
  induction ws with
  | nil => rfl
  | cons w ws ih =>
    simp only [List.map_cons, concatAll, List.length_append, ih, List.length_cons,
      hidhide.u16ToLeBytes, List.length_nil]
    omega

theorem encodeWide_lt (L : List Bytes) (h : ∀ s ∈ L, ∀ u ∈ s, u < 65536) :
    ∀ w ∈ hidhide.encodeWide L, w < 65536 := by
  intro w hw
  unfold hidhide.encodeWide at hw
  rw [List.mem_append, mem_concatAll] at hw
  rcases hw with ⟨l, hl, hwl⟩ | hw
  · rw [List.mem_map] at hl
    obtain ⟨s, hsL, rfl⟩ := hl
    rw [List.mem_append] at hwl
    rcases hwl with hws | hw0
    · exact h s hsL w hws
    · simp at hw0
      omega
  · simp at hw
    omega

/-- C8 (amended): the double-null-terminated UTF-16LE multi-string codec of
the hiding-driver client round-trips: for every list of non-empty strings
that contain no NUL code unit, `decode_multi_string (encode_multi_string L)`
returns `L` unchanged. (The original claim, quantified over all non-empty
strings, fails for strings with an interior NUL — see the counterexample.) -/
theorem C8_decode_encode_roundtrip (L : List Bytes)
    (h : ∀ s ∈ L, s ≠ [] ∧ ∀ u ∈ s, 0 < u ∧ u < 65536) :
    hidhide.decode_multi_string (hidhide.encode_multi_string L) = L := by
  have hne : ∀ s ∈ L, s ≠ [] := fun s hs => (h s hs).1
  have hnz : ∀ s ∈ L, ∀ u ∈ s, u ≠ 0 := by
    intro s hs u hu
    have := ((h s hs).2 u hu).1
    omega
  have hlt : ∀ s ∈ L, ∀ u ∈ s, u < 65536 := fun s hs u hu => ((h s hs).2 u hu).2
  unfold hidhide.decode_multi_string
  have hwlen : 1 ≤ (hidhide.encodeWide L).length := by
    simp [hidhide.encodeWide]
  have hlen : ¬ (hidhide.encode_multi_string L).length < 2 := by
    rw [encode_length]
    omega
  rw [if_neg hlen]
  have hdef : hidhide.encode_multi_string L =
      concatAll ((hidhide.encodeWide L).map hidhide.u16ToLeBytes) := rfl
  rw [hdef, bytesToWide_concatAll _ (encodeWide_lt L hlt)]
  exact splitLoop_encodeWide L hne hnz

/-- Witness for C8: the round-trip evaluated at the concrete list
`["USB", "X"]` (as code-unit lists). -/
theorem C8_roundtrip_witness :
    (∀ s ∈ [[85, 83, 66], [88]], s ≠ [] ∧ ∀ u ∈ s, 0 < u ∧ u < 65536) ∧
      hidhide.decode_multi_string
        (hidhide.encode_multi_string [[85, 83, 66], [88]]) = [[85, 83, 66], [88]] :=
  ⟨by decide, C8_decode_encode_roundtrip _ (by decide)⟩

/-- Counterexample to C8 as stated: the non-empty string `"a\0"` (code units
`[97, 0]`) does not survive the round-trip — decoding stops at the embedded
NUL, returning `[[97]]`. -/
theorem C8_counterexample :
    ([97, 0] : Bytes) ≠ [] ∧
      hidhide.decode_multi_string (hidhide.encode_multi_string [[97, 0]]) ≠ [[97, 0]] := by
  decide

/-- C9: starting from any driver blacklist that does not yet contain the
path (uppercase-insensitively), calling `add_to_blacklist` twice with the
same instance path — the second time in any letter case — issues the
`SET_BLACKLIST` IOCTL exactly once across the two calls: the uppercase containment check of the
second call finds the path and skips the write. -/
theorem C9_add_to_blacklist_once (B : List Bytes) (p q : Bytes)
    (hq : toUppercase q = toUppercase p)
    (hB : ∀ s ∈ B, toUppercase s ≠ toUppercase p) :
    hidhide.setCount (hidhide.add_to_blacklist B p).2 +
      hidhide.setCount
        (hidhide.add_to_blacklist (hidhide.add_to_blacklist B p).1 q).2 = 1 := by
  have h1 : B.any (fun s => toUppercase s == toUppercase p) = false := by
    rw [List.any_eq_false]
    intro s hs
    simp only [beq_iff_eq]
    exact hB s hs
  have hfirst : hidhide.add_to_blacklist B p = (B ++ [p], true) := by
    simp [hidhide.add_to_blacklist, h1]
  have h2 : (B ++ [p]).any (fun s => toUppercase s == toUppercase q) = true := by
    rw [List.any_eq_true]
    exact ⟨p, by simp, by simp [hq]⟩
  rw [hfirst]
  simp [hidhide.add_to_blacklist, h2, hidhide.setCount]

/-- Witness for C9: both calls evaluated on the empty initial blacklist with
the example path from the spec, the second call lowercased. -/
theorem C9_witness :
    (toUppercase (strBytes "usb\\vid_045e&pid_028e\\x") =
        toUppercase (strBytes "USB\\VID_045E&PID_028E\\X")) ∧
      (∀ s ∈ ([] : List Bytes),
        toUppercase s ≠ toUppercase (strBytes "USB\\VID_045E&PID_028E\\X")) ∧
      hidhide.setCount
          (hidhide.add_to_blacklist [] (strBytes "USB\\VID_045E&PID_028E\\X")).2 +
        hidhide.setCount
          (hidhide.add_to_blacklist
            (hidhide.add_to_blacklist [] (strBytes "USB\\VID_045E&PID_028E\\X")).1
            (strBytes "usb\\vid_045e&pid_028e\\x")).2 = 1 :=
  ⟨by decide, by decide,
    C9_add_to_blacklist_once [] _ _ (by decide) (by decide)⟩

theorem asciiUpperByte_idem (b : Nat) :
    asciiUpperByte (asciiUpperByte b) = asciiUpperByte b := by
  unfold asciiUpperByte
  split_ifs <;> omega

theorem toUppercase_idem (s : Bytes) :
    toUppercase (toUppercase s) = toUppercase s := by
  unfold toUppercase
  rw [List.map_map]
  exact List.map_congr_left (fun b _ => asciiUpperByte_idem b)

/-- C7 (amended): the stable device id is a deterministic pure function of
the instance path, and on the Windows backend (`setupdi.rs`) it is invariant
under uppercasing the path — `id(p) = id(uppercase(p))` for every path —
because the path is uppercase-canonicalized before hashing. The Linux
backend hashes the raw physical path without canonicalization, so the
equation does not hold there (see the counterexample). -/
theorem C7_windows_id_uppercase_invariant (p : Bytes) :
    setupdi.stable_device_id p = setupdi.stable_device_id (toUppercase p) := by
  unfold setupdi.stable_device_id
  rw [toUppercase_idem]

/-- Counterexample to C7 as stated ("on every platform backend that derives
ids from device paths"): on the Linux backend the id of the one-byte physical
path `"a"` differs from the id of its uppercase form `"A"`. -/
theorem C7_counterexample :
    linux_platform.stable_device_id (strBytes "a") ≠
      linux_platform.stable_device_id (toUppercase (strBytes "a")) := by
  decide

theorem mem_orderedInsertRA (a x : ResolvedAssignment) (l : List ResolvedAssignment) :
    x ∈ orderedInsertRA a l ↔ x = a ∨ x ∈ l := by
  induction l with
  | nil => simp [orderedInsertRA]
  | cons b l ih =>
    unfold orderedInsertRA
    split_ifs
    · simp
    · simp only [List.mem_cons, ih]
      tauto

theorem mem_sortByTargetSlot (x : ResolvedAssignment) (l : List ResolvedAssignment) :
    x ∈ sortByTargetSlot l ↔ x ∈ l := by
  induction l with
  | nil => simp [sortByTargetSlot]
  | cons a rest ih =>
    simp [sortByTargetSlot, mem_orderedInsertRA, ih]

/-- C4 (amended): in Minimal mode with the two enabled resolved assignments
`{A → slot 1, path PA; B → slot 0, path PB}`, the worker issues exactly
`disable(PB), disable(PA), sleep 200 ms, enable(PB), sleep 100 ms,
enable(PA), sleep 100 ms` — the 100 ms pause follows every enable, including
the last, rather than only separating the enables — and after
`stop_forwarding` additionally issues `enable(PB), enable(PA)`; the trace is
the same for every assignment of per-device SetupDi failures, so disable and
enable errors never abort the remaining steps. -/
theorem C4_minimal_reorder_trace (PA PB : String) (sa sb : Option Nat)
    (setupdiFails setupdiFails2 : String → Bool) :
    run_minimal_trace setupdiFails
        [⟨PA, sa, 1⟩, ⟨PB, sb, 0⟩] =
      [MinEvent.disable PB, MinEvent.disable PA, MinEvent.sleepMs 200,
        MinEvent.enable PB, MinEvent.sleepMs 100,
        MinEvent.enable PA, MinEvent.sleepMs 100] ∧
    run_minimal_cleanup_trace [⟨PA, sa, 1⟩, ⟨PB, sb, 0⟩] =
      [MinEvent.enable PB, MinEvent.enable PA] ∧
    (∀ l, run_minimal_trace setupdiFails l = run_minimal_trace setupdiFails2 l) := by
  refine ⟨?_, ?_, fun l => rfl⟩
  · simp [run_minimal_trace, sortByTargetSlot, orderedInsertRA, concatAll]
  · simp [run_minimal_cleanup_trace, sortByTargetSlot, orderedInsertRA]

/-- Counterexample to C4 as stated: with `PA = "PA"`, `PB = "PB"` the
call sequence of the worker is not the six-element sequence of the claim — a
trailing 100 ms sleep follows the final enable. -/
theorem C4_counterexample :
    run_minimal_trace (fun _ => false)
        [⟨"PA", none, 1⟩, ⟨"PB", none, 0⟩] ≠
      [MinEvent.disable "PB", MinEvent.disable "PA", MinEvent.sleepMs 200,
        MinEvent.enable "PB", MinEvent.sleepMs 100, MinEvent.enable "PA"] := by
  decide

/-- C2 (code evaluated at the failing inputs): with two assignments, a
hiding-driver *open* failure at the activation step makes the worker return
with the already-hidden devices still hidden — its whole trace is the
whitelist, the two hides and the failed open, with no `set_active(false)`
and no unhide — and a `set_active(true)` failure does not abort the start at
all: the worker still reaches the forwarding loop. The claim (and spec
§4.5/§7) requires both failures to abort the start and trigger cleanup. -/
theorem C2_hiding_activation_failure_no_cleanup :
    (run_force_forwarding
        ⟨true, false, true, true, fun _ => true, true, true⟩
        [⟨"P1", some 0, 0⟩, ⟨"P2", some 1, 1⟩] =
      ([ForceEvent.whitelistSelf, ForceEvent.hide "P1", ForceEvent.hide "P2",
        ForceEvent.openHidHide false], StartOutcome.abortedNoCleanup)) ∧
    (run_force_forwarding
        ⟨true, true, false, true, fun _ => true, true, true⟩
        [⟨"P1", some 0, 0⟩, ⟨"P2", some 1, 1⟩]).2 = StartOutcome.enteredLoop := by
  constructor
  · simp [run_force_forwarding, sortByTargetSlot, orderedInsertRA]
  · simp [run_force_forwarding, sortByTargetSlot, orderedInsertRA, plugTargets]

/-- C1 (amended): when the virtual-bus connect fails inside the Force worker
after `start_forwarding` already returned, the worker does release its
acquired resources — the cleanup deactivates hiding and unhides every
path of every assignment — and clears its `running` flag, but
`Inner.forwarding_active` remains `true` and no
`forwarding-status {active:false, error}` event is emitted (the only event
of the start is the `{active:true}` emitted by the command). Synchronous start failures,
by contrast, always leave `forwarding_active = false`. -/
theorem C1_amended_worker_bus_failure (env : ForceEnv) (A : List ResolvedAssignment)
    (h1 : env.whitelistOk = true) (h2 : env.openOk = true)
    (h3 : env.busConnectOk = false) (h4 : env.cleanupOpenOk = true) :
    (force_start_session env A).forwarding_active = true ∧
    (force_start_session env A).workerRunning = false ∧
    ForceEvent.setActive false ∈ (force_start_session env A).workerTrace ∧
    (∀ ra ∈ A,
      ForceEvent.unhide ra.instance_path ∈ (force_start_session env A).workerTrace) ∧
    (force_start_session env A).events = [UiEvent.forwardingStatus true false] ∧
    (∀ fa pf rn so : Bool, (start_forwarding_sync fa pf rn so).2 = false →
      (start_forwarding_sync fa pf rn so).1 = false) := by
  have htr : (force_start_session env A).workerTrace =
      (ForceEvent.whitelistSelf ::
          ((sortByTargetSlot A).map (·.instance_path)).map ForceEvent.hide) ++
        [ForceEvent.openHidHide true, ForceEvent.setActive true] ++
        [ForceEvent.busConnect false] ++
        ([ForceEvent.openHidHide true, ForceEvent.setActive false] ++
          ((sortByTargetSlot A).map (·.instance_path)).map ForceEvent.unhide) := by
    simp [force_start_session, run_force_forwarding, cleanup_force, h1, h2, h3, h4]
  refine ⟨rfl, ?_, ?_, ?_, rfl, by decide⟩
  · simp [force_start_session, run_force_forwarding, h1, h2, h3]
  · rw [htr]
    simp
  · intro ra hra
    rw [htr]
    have hmem : ForceEvent.unhide ra.instance_path ∈
        ((sortByTargetSlot A).map (·.instance_path)).map ForceEvent.unhide :=
      List.mem_map_of_mem _
        (List.mem_map_of_mem _ ((mem_sortByTargetSlot ra A).mpr hra))
    simp only [List.mem_append]
    exact Or.inr (Or.inr hmem)

/-- Witness for C1 (amended), at a bus-connect-failing environment and one
assignment. -/
theorem C1_witness :
    (force_start_session ⟨true, true, true, false, fun _ => true, true, true⟩
        [⟨"P1", some 0, 0⟩]).forwarding_active = true ∧
    (force_start_session ⟨true, true, true, false, fun _ => true, true, true⟩
        [⟨"P1", some 0, 0⟩]).workerRunning = false ∧
    ForceEvent.setActive false ∈
      (force_start_session ⟨true, true, true, false, fun _ => true, true, true⟩
        [⟨"P1", some 0, 0⟩]).workerTrace ∧
    (∀ ra ∈ [(⟨"P1", some 0, 0⟩ : ResolvedAssignment)],
      ForceEvent.unhide ra.instance_path ∈
        (force_start_session ⟨true, true, true, false, fun _ => true, true, true⟩
          [⟨"P1", some 0, 0⟩]).workerTrace) ∧
    (force_start_session ⟨true, true, true, false, fun _ => true, true, true⟩
        [⟨"P1", some 0, 0⟩]).events = [UiEvent.forwardingStatus true false] ∧
    (∀ fa pf rn so : Bool, (start_forwarding_sync fa pf rn so).2 = false →
      (start_forwarding_sync fa pf rn so).1 = false) :=
  C1_amended_worker_bus_failure _ _ rfl rfl rfl rfl

/-- Counterexample to C1 as stated: after a Force start whose virtual-bus
connect fails in the worker, the system does *not* end with
`forwarding_active = false` and a `forwarding-status {active:false, error}`
event — the flag is still `true` and no such event was emitted. -/
theorem C1_counterexample :
    ¬ ((force_start_session ⟨true, true, true, false, fun _ => true, true, true⟩
          [⟨"P1", some 0, 0⟩]).forwarding_active = false ∧
        UiEvent.forwardingStatus false true ∈
          (force_start_session ⟨true, true, true, false, fun _ => true, true, true⟩
            [⟨"P1", some 0, 0⟩]).events) := by
  decide

theorem forcePassAux_cons_none (xinputReads : Nat → Option GamepadState) (i0 : Nat)
    (ra : ResolvedAssignment) (rest : List ResolvedAssignment)
    (h : ra.xinput_slot = none) :
    forcePassAux xinputReads i0 (ra :: rest) = forcePassAux xinputReads (i0 + 1) rest := by
  simp only [forcePassAux, h]

theorem forcePassAux_cons_fail (xinputReads : Nat → Option GamepadState) (i0 : Nat)
    (ra : ResolvedAssignment) (rest : List ResolvedAssignment) (slot : Nat)
    (h : ra.xinput_slot = some slot) (hr : xinputReads slot = none) :
    forcePassAux xinputReads i0 (ra :: rest) = forcePassAux xinputReads (i0 + 1) rest := by
  simp only [forcePassAux, h, hr]

theorem forcePassAux_cons_read (xinputReads : Nat → Option GamepadState) (i0 : Nat)
    (ra : ResolvedAssignment) (rest : List ResolvedAssignment) (slot : Nat)
    (frame : GamepadState)
    (h : ra.xinput_slot = some slot) (hr : xinputReads slot = some frame) :
    forcePassAux xinputReads i0 (ra :: rest) =
      (i0, frame) :: forcePassAux xinputReads (i0 + 1) rest := by
  simp only [forcePassAux, h, hr]

theorem forcePassAux_index_ge (xinputReads : Nat → Option GamepadState)
    (l : List ResolvedAssignment) :
    ∀ (i0 j : Nat) (st : GamepadState),
      (j, st) ∈ forcePassAux xinputReads i0 l → i0 ≤ j := by
  induction l with
  | nil =>
    intro i0 j st h
    simp [forcePassAux] at h
  | cons ra rest ih =>
    intro i0 j st h
    rcases hslot : ra.xinput_slot with _ | slot
    · rw [forcePassAux_cons_none _ _ _ _ hslot] at h
      exact Nat.le_of_succ_le (ih (i0 + 1) j st h)
    · rcases hr : xinputReads slot with _ | frame
      · rw [forcePassAux_cons_fail _ _ _ _ _ hslot hr] at h
        exact Nat.le_of_succ_le (ih (i0 + 1) j st h)
      · rw [forcePassAux_cons_read _ _ _ _ _ _ hslot hr] at h
        rcases List.mem_cons.mp h with heq | hmem
        · cases heq
          exact Nat.le_refl _
        · exact Nat.le_of_succ_le (ih (i0 + 1) j st hmem)

theorem forcePassAux_skips_none (xinputReads : Nat → Option GamepadState)
    (l : List ResolvedAssignment) :
    ∀ (i0 k : Nat) (ra : ResolvedAssignment), l.get? k = some ra →
      ra.xinput_slot = none →
      ∀ st : GamepadState, (i0 + k, st) ∉ forcePassAux xinputReads i0 l := by
  induction l with
  | nil =>
    intro i0 k ra hget
    simp at hget
  | cons rb rest ih =>
    intro i0 k ra hget hnone st hmem
    cases k with
    | zero =>
      rw [List.get?_cons_zero, Option.some_inj] at hget
      subst hget
      rw [forcePassAux_cons_none _ _ _ _ hnone] at hmem
      have := forcePassAux_index_ge xinputReads rest (i0 + 1) (i0 + 0) st hmem
      omega
    | succ k' =>
      rw [List.get?_cons_succ] at hget
      have htail : (i0 + (k' + 1), st) ∉ forcePassAux xinputReads (i0 + 1) rest := by
        have hih := ih (i0 + 1) k' ra hget hnone st
        have harith : i0 + 1 + k' = i0 + (k' + 1) := by omega
        rw [harith] at hih
        exact hih
      rcases hslot : rb.xinput_slot with _ | slot
      · rw [forcePassAux_cons_none _ _ _ _ hslot] at hmem
        exact htail hmem
      · rcases hr : xinputReads slot with _ | frame
        · rw [forcePassAux_cons_fail _ _ _ _ _ hslot hr] at hmem
          exact htail hmem
        · rw [forcePassAux_cons_read _ _ _ _ _ _ hslot hr] at hmem
          rcases List.mem_cons.mp hmem with heq | hmem'
          · have : i0 + (k' + 1) = i0 := congrArg Prod.fst heq
            omega
          · exact htail hmem'

theorem applyUpdates_not_mem (us : List (Nat × GamepadState)) :
    ∀ (f : Nat → GamepadState) (i : Nat),
      (∀ st : GamepadState, (i, st) ∉ us) → applyUpdates f us i = f i := by
  induction us with
  | nil =>
    intro f i _
    rfl
  | cons u rest ih =>
    intro f i hni
    rcases u with ⟨j, st⟩
    have hij : i ≠ j := by
      intro h
      exact hni st (by rw [h]; exact List.mem_cons_self _ _)
    unfold applyUpdates
    rw [ih _ i (fun st' hmem => hni st' (List.mem_cons_of_mem _ hmem))]
    simp [hij]

theorem plugTargets_all_ok (env : ForceEnv) (hok : ∀ j, env.plugOk j = true) :
    ∀ (n i0 : Nat), plugTargets env i0 n =
      ((List.range n).map (fun j => ForceEvent.plugTarget (i0 + j) true), true) := by
  intro n
  induction n with
  | zero =>
    intro i0
    simp [plugTargets]
  | succ n ih =>
    intro i0
    unfold plugTargets
    rw [hok i0]
    simp only [if_true, ih (i0 + 1)]
    rw [List.range_succ_eq_map]
    simp only [List.map_cons, List.map_map, Prod.mk.injEq, Nat.add_zero]
    refine ⟨?_, trivial⟩
    congr 1
    apply List.map_congr_left
    intro j _
    simp only [Function.comp_apply]
    congr 1
    omega

/-- C10: in Windows Force mode, an assignment whose device has no known
`xinput_slot` still gets a virtual target plugged at its position in the
sorted order — one target per assignment, in order, when plugs succeed —
but every pass of the forwarding loop skips it, so that target is never
updated and permanently reports the neutral default state, regardless of
how many passes run and what every slot read returns. -/
theorem C10_slotless_assignment_target_stays_neutral
    (assignments : List ResolvedAssignment) (i : Nat) (ra : ResolvedAssignment)
    (env : ForceEnv) (reads : List (Nat → Option GamepadState))
    (hget : (sortByTargetSlot assignments).get? i = some ra)
    (hnone : ra.xinput_slot = none)
    (hplug : ∀ j, env.plugOk j = true) :
    (plugTargets env 0 (sortByTargetSlot assignments).length).1 =
      (List.range (sortByTargetSlot assignments).length).map
        (fun j => ForceEvent.plugTarget j true) ∧
    (plugTargets env 0 (sortByTargetSlot assignments).length).2 = true ∧
    i < (sortByTargetSlot assignments).length ∧
    runPasses assignments reads i = GamepadState.neutral := by
  refine ⟨?_, ?_, ?_, ?_⟩
  · rw [plugTargets_all_ok env hplug]
    simp
  · rw [plugTargets_all_ok env hplug]
  · exact (List.get?_eq_some.mp hget).1
  · unfold runPasses
    have key : ∀ (rs : List (Nat → Option GamepadState)) (f : Nat → GamepadState),
        f i = GamepadState.neutral →
        rs.foldl
          (fun f r => applyUpdates f (force_pass r (sortByTargetSlot assignments))) f i =
          GamepadState.neutral := by
      intro rs
      induction rs with
      | nil =>
        intro f hf
        exact hf
      | cons r rs ih =>
        intro f hf
        rw [List.foldl_cons]
        apply ih
        rw [applyUpdates_not_mem]
        · exact hf
        · intro st hmem
          have := forcePassAux_skips_none r (sortByTargetSlot assignments) 0 i ra hget
            hnone st
          rw [Nat.zero_add] at this
          exact this hmem
    exact key reads _ rfl

/-- Witness for C10: two assignments, the slot-less one first in sorted
order; one pass with every slot reading a non-neutral frame. -/
theorem C10_witness :
    (plugTargets ⟨true, true, true, true, fun _ => true, true, true⟩ 0
        (sortByTargetSlot [⟨"PX", none, 0⟩, ⟨"PY", some 1, 1⟩]).length).1 =
      (List.range (sortByTargetSlot [⟨"PX", none, 0⟩, ⟨"PY", some 1, 1⟩]).length).map
        (fun j => ForceEvent.plugTarget j true) ∧
    (plugTargets ⟨true, true, true, true, fun _ => true, true, true⟩ 0
        (sortByTargetSlot [⟨"PX", none, 0⟩, ⟨"PY", some 1, 1⟩]).length).2 = true ∧
    0 < (sortByTargetSlot [⟨"PX", none, 0⟩, ⟨"PY", some 1, 1⟩]).length ∧
    runPasses [⟨"PX", none, 0⟩, ⟨"PY", some 1, 1⟩]
        [fun _ => some ⟨4096, 0, 0, 0, 0, 0, 0⟩] 0 = GamepadState.neutral :=
  C10_slotless_assignment_target_stays_neutral
    [⟨"PX", none, 0⟩, ⟨"PY", some 1, 1⟩] 0 ⟨"PX", none, 0⟩
    ⟨true, true, true, true, fun _ => true, true, true⟩
    [fun _ => some ⟨4096, 0, 0, 0, 0, 0, 0⟩]
    (by decide) rfl (fun _ => rfl)

theorem assignSlots_slots (real : List GameControllerInfo) :
    ∀ slots : List Nat,
      slotsOf (assignSlots real slots).1 ++ (assignSlots real slots).2 = slots := by
  induction real with
  | nil =>
    intro slots
    simp [assignSlots, slotsOf]
  | cons dev rest ih =>
    intro slots
    unfold assignSlots
    rcases hx : dev.is_xinput with _ | _
    · simp only [Bool.false_eq_true, if_false]
      simp only [slotsOf, List.filterMap_cons, mkEnumeratedDevice]
      exact ih slots
    · simp only [if_true]
      cases slots with
      | nil =>
        simp only [slotsOf, List.filterMap_cons, mkEnumeratedDevice]
        exact ih []
      | cons s slots' =>
        simp only [slotsOf, List.filterMap_cons, mkEnumeratedDevice, List.cons_append]
        have h := ih slots'
        unfold slotsOf at h
        rw [h]

theorem slotsOf_fallback (slots : List Nat) :
    slotsOf (slots.map PhysicalDevice.from_xinput_slot) = slots := by
  induction slots with
  | nil => rfl
  | cons s rest ih =>
    simp only [List.map_cons, slotsOf, List.filterMap_cons, PhysicalDevice.from_xinput_slot]
    have h := ih
    unfold slotsOf at h
    rw [h]

theorem enumerate_devices_slots (connected_slots : List Nat)
    (real : List GameControllerInfo) :
    slotsOf (enumerate_devices connected_slots real) = connected_slots := by
  unfold enumerate_devices
  split_ifs
  · exact slotsOf_fallback connected_slots
  · show slotsOf ((assignSlots real connected_slots).1 ++
      (assignSlots real connected_slots).2.map PhysicalDevice.from_xinput_slot) = _
    unfold slotsOf
    rw [List.filterMap_append]
    show slotsOf (assignSlots real connected_slots).1 ++
      slotsOf ((assignSlots real connected_slots).2.map PhysicalDevice.from_xinput_slot) = _
    rw [slotsOf_fallback]
    exact assignSlots_slots real connected_slots

/-- C5 (amended): enumeration maintains the invariant — the slots bound by
`WindowsPlatform::enumerate_devices` are exactly the connected XInput slots,
each bound to at most one device (the bound-slot list is duplicate-free for
every SetupAPI device list and every slot-occupancy predicate). The second
half of the claim fails: `confirm_device_slot` does not preserve the invariant,
because it binds the slot of the confirmed device without clearing that slot
from any other device (see the counterexample). -/
theorem C5_enumeration_slot_uniqueness (occupied : Nat → Bool)
    (real : List GameControllerInfo) :
    slotUnique (enumerate_devices (connectedSlots occupied) real) ∧
      slotsOf (enumerate_devices (connectedSlots occupied) real) =
        connectedSlots occupied := by
  constructor
  · unfold slotUnique
    rw [enumerate_devices_slots]
    exact (List.nodup_range 4).filter occupied
  · exact enumerate_devices_slots _ _

/-- Counterexample to C5 as stated: a table satisfying the invariant — one
device bound to slot 0, another unbound — stops satisfying it after
`confirm_device_slot` confirms slot 0 for the second device: both devices
are now bound to slot 0. -/
theorem C5_counterexample :
    slotUnique
      [⟨"a", "Pad A", strBytes "P1", DeviceType.XInput, false, true, 0, 0, some 0⟩,
       ⟨"b", "Pad B", strBytes "P2", DeviceType.XInput, false, true, 0, 0, none⟩] ∧
    ¬ slotUnique
      (commands.confirm_device_slot
        [⟨"a", "Pad A", strBytes "P1", DeviceType.XInput, false, true, 0, 0, some 0⟩,
         ⟨"b", "Pad B", strBytes "P2", DeviceType.XInput, false, true, 0, 0, none⟩]
        "b" 0) := by
  constructor
  · decide
  · decide

theorem activate_profile_internal_found (rf : Bool) (m : AppModel) (pid : String)
    (profile : Profile)
    (hfind : m.profiles.find? (fun p => p.id == pid) = some profile) :
    process_watcher.activate_profile_internal rf m pid =
      ({ m with
          active_profile_id := some pid,
          assignments := profile.assignments,
          forwarding_active :=
            if m.forwarding_active && rf then false else m.forwarding_active },
        [Effect.saveConfig] ++
          (if m.forwarding_active then
            [Effect.restartForwarding] ++
              (if rf then [Effect.emitForwardingStatus false true] else [])
          else []) ++
          [Effect.rebuildTray, Effect.emitProfileActivated (some pid)],
        true) := by
  unfold process_watcher.activate_profile_internal
  rw [hfind]

theorem matched_rule_no_processes (rules : List GameRule) :
    process_watcher.matched_rule rules [] = none := by
  unfold process_watcher.matched_rule
  rw [List.find?_eq_none]
  intro r _
  simp

/-- C3 (amended): for every existing profile id, the `activate_profile`
command writes `active_profile_id`, replaces the in-memory assignments,
persists the config and returns the assignments — but it never calls
`restart_forwarding`, even while forwarding is active. Only the internal
activation path of the process watcher restarts forwarding (on the watcher
thread) when the flag is set. -/
theorem C3_activate_profile_no_restart (m : AppModel) (pid : String)
    (profile : Profile) (rf : Bool)
    (hfind : m.profiles.find? (fun p => p.id == pid) = some profile) :
    commands.activate_profile m pid =
      some ({ m with
                active_profile_id := some pid,
                assignments := profile.assignments },
            [Effect.saveConfig, Effect.rebuildTray], profile.assignments) ∧
    Effect.restartForwarding ∉ [Effect.saveConfig, Effect.rebuildTray] ∧
    (m.forwarding_active = true →
      Effect.restartForwarding ∈
        (process_watcher.activate_profile_internal rf m pid).2.1) := by
  refine ⟨?_, by decide, ?_⟩
  · unfold commands.activate_profile
    rw [hfind]
  · intro hfa
    rw [activate_profile_internal_found rf m pid profile hfind]
    simp [hfa]

/-- Witness for C3 (amended), at a concrete one-profile state with
forwarding active. -/
theorem C3_witness :
    commands.activate_profile
        ⟨[⟨"P", "Game profile", [⟨"dev", 0, true⟩], RoutingMode.Minimal⟩], [],
          some "Q", [], true⟩ "P" =
      some (⟨[⟨"P", "Game profile", [⟨"dev", 0, true⟩], RoutingMode.Minimal⟩], [],
            some "P", [⟨"dev", 0, true⟩], true⟩,
          [Effect.saveConfig, Effect.rebuildTray], [⟨"dev", 0, true⟩]) ∧
    Effect.restartForwarding ∉ [Effect.saveConfig, Effect.rebuildTray] ∧
    (AppModel.forwarding_active
        ⟨[⟨"P", "Game profile", [⟨"dev", 0, true⟩], RoutingMode.Minimal⟩], [],
          some "Q", [], true⟩ = true →
      Effect.restartForwarding ∈
        (process_watcher.activate_profile_internal false
          ⟨[⟨"P", "Game profile", [⟨"dev", 0, true⟩], RoutingMode.Minimal⟩], [],
            some "Q", [], true⟩ "P").2.1) :=
  C3_activate_profile_no_restart
    ⟨[⟨"P", "Game profile", [⟨"dev", 0, true⟩], RoutingMode.Minimal⟩], [],
      some "Q", [], true⟩ "P"
    ⟨"P", "Game profile", [⟨"dev", 0, true⟩], RoutingMode.Minimal⟩ false (by decide)

/-- Counterexample to C3 as stated: with forwarding active, the
`activate_profile` command completes — writing the id and assignments — with
an effect list of exactly `[saveConfig, rebuildTray]`: no
`restart_forwarding` call happens on the requesting thread. -/
theorem C3_counterexample :
    AppModel.forwarding_active
        ⟨[⟨"P", "Game profile", [⟨"dev", 0, true⟩], RoutingMode.Minimal⟩], [],
          some "Q", [], true⟩ = true ∧
    commands.activate_profile
        ⟨[⟨"P", "Game profile", [⟨"dev", 0, true⟩], RoutingMode.Minimal⟩], [],
          some "Q", [], true⟩ "P" =
      some (⟨[⟨"P", "Game profile", [⟨"dev", 0, true⟩], RoutingMode.Minimal⟩], [],
            some "P", [⟨"dev", 0, true⟩], true⟩,
          [Effect.saveConfig, Effect.rebuildTray], [⟨"dev", 0, true⟩]) ∧
    Effect.restartForwarding ∉ [Effect.saveConfig, Effect.rebuildTray] := by
  decide

/-- C6: with one enabled rule mapping `Game.exe` to profile `P` and current
active profile `Q`, the watcher tick takes the running-process list through
`[] → [Game.exe] → []` by: doing nothing on the empty list; on launch,
activating `P` (writing its id and assignments) and recording
`pre_game = Q` with `active_rule_id` set; on exit, clearing
`active_rule_id` (and `pre_game`) and re-activating `Q`. Matching is
ASCII-case-insensitive: the same rule also matches `gAmE.eXe`. -/
theorem C6_watcher_launch_exit_cycle (P Q : Profile) (rid : String)
    (m0 : AppModel) (rf : Bool)
    (hrules : m0.game_rules = [⟨rid, strBytes "Game.exe", P.id, true⟩])
    (hactive : m0.active_profile_id = some Q.id)
    (hfa : m0.forwarding_active = false)
    (hP : m0.profiles.find? (fun p => p.id == P.id) = some P)
    (hQ : m0.profiles.find? (fun p => p.id == Q.id) = some Q) :
    process_watcher.watcher_tick rf ⟨none, none⟩ m0 [] = (⟨none, none⟩, m0, []) ∧
    (process_watcher.watcher_tick rf ⟨none, none⟩ m0 [strBytes "Game.exe"]).1 =
      ⟨some rid, some Q.id⟩ ∧
    (process_watcher.watcher_tick rf ⟨none, none⟩ m0
        [strBytes "Game.exe"]).2.1.active_profile_id = some P.id ∧
    (process_watcher.watcher_tick rf ⟨none, none⟩ m0
        [strBytes "Game.exe"]).2.1.assignments = P.assignments ∧
    (process_watcher.watcher_tick rf
        (process_watcher.watcher_tick rf ⟨none, none⟩ m0 [strBytes "Game.exe"]).1
        (process_watcher.watcher_tick rf ⟨none, none⟩ m0 [strBytes "Game.exe"]).2.1
        []).1 = ⟨none, none⟩ ∧
    (process_watcher.watcher_tick rf
        (process_watcher.watcher_tick rf ⟨none, none⟩ m0 [strBytes "Game.exe"]).1
        (process_watcher.watcher_tick rf ⟨none, none⟩ m0 [strBytes "Game.exe"]).2.1
        []).2.1.active_profile_id = some Q.id ∧
    process_watcher.matched_rule m0.game_rules [strBytes "gAmE.eXe"] =
      some ⟨rid, strBytes "Game.exe", P.id, true⟩ := by
  have hmatch : process_watcher.matched_rule m0.game_rules [strBytes "Game.exe"] =
      some ⟨rid, strBytes "Game.exe", P.id, true⟩ := by
    rw [hrules]
    rfl
  have hint2 := activate_profile_internal_found rf m0 P.id P hP
  rw [hfa] at hint2
  simp at hint2
  have htick2 : process_watcher.watcher_tick rf ⟨none, none⟩ m0 [strBytes "Game.exe"] =
      (⟨some rid, m0.active_profile_id⟩,
        { m0 with
            active_profile_id := some P.id,
            assignments := P.assignments,
            forwarding_active := false },
        [Effect.saveConfig, Effect.rebuildTray,
          Effect.emitProfileActivated (some P.id)]) := by
    simp only [process_watcher.watcher_tick, hmatch, hint2]
    simp
  have hint3 : process_watcher.activate_profile_internal rf
      { m0 with
          active_profile_id := some P.id,
          assignments := P.assignments,
          forwarding_active := false } Q.id =
      ({ m0 with
          active_profile_id := some Q.id,
          assignments := Q.assignments,
          forwarding_active := false },
        [Effect.saveConfig, Effect.rebuildTray,
          Effect.emitProfileActivated (some Q.id)], true) := by
    have h := activate_profile_internal_found rf
      { m0 with
          active_profile_id := some P.id,
          assignments := P.assignments,
          forwarding_active := false } Q.id Q hQ
    simp at h
    exact h
  have htick3 : process_watcher.watcher_tick rf ⟨some rid, some Q.id⟩
      { m0 with
          active_profile_id := some P.id,
          assignments := P.assignments,
          forwarding_active := false } [] =
      (⟨none, none⟩,
        { m0 with
            active_profile_id := some Q.id,
            assignments := Q.assignments,
            forwarding_active := false },
        [Effect.saveConfig, Effect.rebuildTray,
          Effect.emitProfileActivated (some Q.id)]) := by
    simp only [process_watcher.watcher_tick,
      matched_rule_no_processes, hint3]
  have hmatchci : process_watcher.matched_rule m0.game_rules [strBytes "gAmE.eXe"] =
      some ⟨rid, strBytes "Game.exe", P.id, true⟩ := by
    rw [hrules]
    rfl
  refine ⟨?_, ?_, ?_, ?_, ?_, ?_, hmatchci⟩
  · simp [process_watcher.watcher_tick, matched_rule_no_processes]
  · rw [htick2, hactive]
  · rw [htick2]
  · rw [htick2]
  · rw [htick2, hactive, htick3]
  · rw [htick2, hactive, htick3]

/-- Witness for C6: a concrete two-profile configuration with the rule
mapping `Game.exe` to `P` and `Q` currently active. -/
theorem C6_witness :
    process_watcher.watcher_tick false ⟨none, none⟩
        ⟨[⟨"P", "P", [⟨"dev", 0, true⟩], RoutingMode.Minimal⟩,
          ⟨"Q", "Q", [], RoutingMode.Minimal⟩],
         [⟨"r1", strBytes "Game.exe", "P", true⟩], some "Q", [], false⟩ [] =
      (⟨none, none⟩,
        ⟨[⟨"P", "P", [⟨"dev", 0, true⟩], RoutingMode.Minimal⟩,
          ⟨"Q", "Q", [], RoutingMode.Minimal⟩],
         [⟨"r1", strBytes "Game.exe", "P", true⟩], some "Q", [], false⟩, []) ∧
    (process_watcher.watcher_tick false ⟨none, none⟩
        ⟨[⟨"P", "P", [⟨"dev", 0, true⟩], RoutingMode.Minimal⟩,
          ⟨"Q", "Q", [], RoutingMode.Minimal⟩],
         [⟨"r1", strBytes "Game.exe", "P", true⟩], some "Q", [], false⟩
        [strBytes "Game.exe"]).1 = ⟨some "r1", some "Q"⟩ ∧
    (process_watcher.watcher_tick false ⟨none, none⟩
        ⟨[⟨"P", "P", [⟨"dev", 0, true⟩], RoutingMode.Minimal⟩,
          ⟨"Q", "Q", [], RoutingMode.Minimal⟩],
         [⟨"r1", strBytes "Game.exe", "P", true⟩], some "Q", [], false⟩
        [strBytes "Game.exe"]).2.1.active_profile_id = some "P" ∧
    (process_watcher.watcher_tick false ⟨none, none⟩
        ⟨[⟨"P", "P", [⟨"dev", 0, true⟩], RoutingMode.Minimal⟩,
          ⟨"Q", "Q", [], RoutingMode.Minimal⟩],
         [⟨"r1", strBytes "Game.exe", "P", true⟩], some "Q", [], false⟩
        [strBytes "Game.exe"]).2.1.assignments = [⟨"dev", 0, true⟩] ∧
    (process_watcher.watcher_tick false
        (process_watcher.watcher_tick false ⟨none, none⟩
          ⟨[⟨"P", "P", [⟨"dev", 0, true⟩], RoutingMode.Minimal⟩,
            ⟨"Q", "Q", [], RoutingMode.Minimal⟩],
           [⟨"r1", strBytes "Game.exe", "P", true⟩], some "Q", [], false⟩
          [strBytes "Game.exe"]).1
        (process_watcher.watcher_tick false ⟨none, none⟩
          ⟨[⟨"P", "P", [⟨"dev", 0, true⟩], RoutingMode.Minimal⟩,
            ⟨"Q", "Q", [], RoutingMode.Minimal⟩],
           [⟨"r1", strBytes "Game.exe", "P", true⟩], some "Q", [], false⟩
          [strBytes "Game.exe"]).2.1
        []).1 = ⟨none, none⟩ ∧
    (process_watcher.watcher_tick false
        (process_watcher.watcher_tick false ⟨none, none⟩
          ⟨[⟨"P", "P", [⟨"dev", 0, true⟩], RoutingMode.Minimal⟩,
            ⟨"Q", "Q", [], RoutingMode.Minimal⟩],
           [⟨"r1", strBytes "Game.exe", "P", true⟩], some "Q", [], false⟩
          [strBytes "Game.exe"]).1
        (process_watcher.watcher_tick false ⟨none, none⟩
          ⟨[⟨"P", "P", [⟨"dev", 0, true⟩], RoutingMode.Minimal⟩,
            ⟨"Q", "Q", [], RoutingMode.Minimal⟩],
           [⟨"r1", strBytes "Game.exe", "P", true⟩], some "Q", [], false⟩
          [strBytes "Game.exe"]).2.1
        []).2.1.active_profile_id = some "Q" ∧
    process_watcher.matched_rule
        [⟨"r1", strBytes "Game.exe", "P", true⟩] [strBytes "gAmE.eXe"] =
      some ⟨"r1", strBytes "Game.exe", "P", true⟩ := by
  have h := C6_watcher_launch_exit_cycle
    ⟨"P", "P", [⟨"dev", 0, true⟩], RoutingMode.Minimal⟩
    ⟨"Q", "Q", [], RoutingMode.Minimal⟩ "r1"
    ⟨[⟨"P", "P", [⟨"dev", 0, true⟩], RoutingMode.Minimal⟩,
      ⟨"Q", "Q", [], RoutingMode.Minimal⟩],
     [⟨"r1", strBytes "Game.exe", "P", true⟩], some "Q", [], false⟩ false
    rfl rfl rfl (by decide) (by decide)
  exact h

end PadSwitch
